import Mathlib

/-!
# A retrying HTTP POST with exponential backoff, a buffered logger and a result cache

Shallow embedding of `main.go`.  The program is one linear script: it builds a
request, runs it under `backoff.RetryNotify`, logs through a small leveled
logger whose sink is an in-memory buffer, and finally inspects and caches the
response.

Everything the program cannot decide by itself is an explicit input, collected
in `World`: what every HTTP attempt yields, which waits the backoff policy
grants before it answers `Stop`, what `ctx.Err()` is when the failure branch
asks for it, and the renderings of values whose text depends on the clock or on
addresses.  The three libraries the script calls (`fmt`/`log`,
`cenkalti/backoff/v4`, `patrickmn/go-cache`) are embedded as far as the script
uses them.
-/

namespace RestyBackoff

/-! ## Plain data -/

/-- The constant `url`. -/
def url : String := "http://localhost:8081/v1/users/"

/-- The response envelope `ResponseAPI`; `Data` is an opaque optional payload. -/
structure ResponseAPI where
  Success : Bool
  Message : String
  Data : Option String
deriving DecidableEq, Repr

/-- The composite literal `ResponseAPI{}`: every field at its zero value. -/
def ResponseAPI.zero : ResponseAPI := ⟨false, "", none⟩

/-- A Go value passed to a formatting function: the name of its dynamic type and
its text under the verbs `%v`, `%+v` and `%s`. -/
structure Arg where
  typ : String
  v : String
  plusV : String
  s : String
deriving DecidableEq, Repr

/-- A value of type `string`. -/
def Arg.ofString (x : String) : Arg := ⟨"string", x, x, x⟩

/-- A value of type `int`; `%s` is not a verb for integers. -/
def Arg.ofInt (n : Nat) : Arg :=
  ⟨"int", toString n, toString n, "%!s(int=" ++ toString n ++ ")"⟩

/-- A Go `error`: the name of its dynamic type and the text of `Error()`. -/
structure GoError where
  typ : String
  msg : String
deriving DecidableEq, Repr

/-- An error as a formatting argument: all three verbs print `Error()`. -/
def GoError.toArg (e : GoError) : Arg := ⟨e.typ, e.msg, e.msg, e.msg⟩

/-! ## `fmt.Sprintf`, the fragment used by the program

Verbs `%v`, `%s`, `%+v`, `%d` on an `int`, and the escape `%%`; a verb without an operand prints
`%!verb(MISSING)`, a lone trailing `%` prints `%!(NOVERB)`, any other verb
prints `%!verb(type=value)`, and operands left over are listed in
`%!(EXTRA ...)`. -/

/-- Text of one operand under the verb character `c`. -/
def Arg.verb (a : Arg) (c : Char) : List Char :=
  if c = 'v' then a.v.data
  else if c = 's' then a.s.data
  else if c = 'd' ∧ a.typ = "int" then a.v.data
  else '%' :: '!' :: c :: '(' :: (a.typ.data ++ '=' :: (a.v.data ++ [')']))

/-- The `type=value` items of the `EXTRA` report, separated by `, `. -/
def extraItems : List Arg → List Char
  | [] => []
  | [a] => a.typ.data ++ '=' :: a.v.data
  | a :: b :: rest => a.typ.data ++ '=' :: (a.v.data ++ ',' :: ' ' :: extraItems (b :: rest))

/-- What `Sprintf` appends when operands are left after the template is used up. -/
def extraArgs : List Arg → List Char
  | [] => []
  | a :: rest => "%!(EXTRA ".data ++ (extraItems (a :: rest) ++ [')'])

/-- The output `Sprintf` produces for a missing operand of verb `c`. -/
def missingArg (c : Char) : List Char :=
  '%' :: '!' :: c :: "(MISSING)".data

/-- Text of one operand under the verb character `c` with the `+` flag set. -/
def Arg.verbPlus (a : Arg) (c : Char) : List Char :=
  if c = 'v' then a.plusV.data else a.verb c

/-- Where the scan of a template stands: in literal text, right after a `%`, or
after `%+`. -/
inductive Scan
  | text
  | percent
  | plus
deriving DecidableEq, Repr

/-- The scanning loop of `fmt.Sprintf` on character lists, one character per step. -/
def sprintfChars : Scan → List Char → List Arg → List Char
  | .text, [], args => extraArgs args
  | .text, c :: cs, args =>
    if c = '%' then sprintfChars .percent cs args else c :: sprintfChars .text cs args
  | .percent, [], args => "%!(NOVERB)".data ++ extraArgs args
  | .percent, c :: cs, [] =>
    if c = '%' then '%' :: sprintfChars .text cs []
    else if c = '+' then sprintfChars .plus cs []
    else missingArg c ++ sprintfChars .text cs []
  | .percent, c :: cs, a :: more =>
    if c = '%' then '%' :: sprintfChars .text cs (a :: more)
    else if c = '+' then sprintfChars .plus cs (a :: more)
    else a.verb c ++ sprintfChars .text cs more
  | .plus, [], args => "%!(NOVERB)".data ++ extraArgs args
  | .plus, c :: cs, [] =>
    if c = '%' then '%' :: sprintfChars .text cs []
    else missingArg c ++ sprintfChars .text cs []
  | .plus, c :: cs, a :: more =>
    if c = '%' then '%' :: sprintfChars .text cs (a :: more)
    else a.verbPlus c ++ sprintfChars .text cs more

/-- `fmt.Sprintf(format, v...)`. -/
def Sprintf (format : String) (v : List Arg) : String :=
  ⟨sprintfChars .text format.data v⟩

/-! ## The logger (`log.Logger` behind `logger`) -/

/-- The `logger` of `main.go` together with the `log.Logger` it wraps: the
prefix and flags given to `log.New`, and the sink it writes to, kept as the
list of `Write` calls the sink received, oldest first. -/
structure logger where
  pfx : String
  flag : Nat
  sink : List String
deriving DecidableEq, Repr

/-- The flags `log.Ldate` and `log.Lmicroseconds`. -/
def Ldate : Nat := 1
/-- The flag `log.Lmicroseconds`. -/
def Lmicroseconds : Nat := 4

/-- `createLogger()` followed by `logger.l.SetOutput(&logBuf)` on a fresh
`bytes.Buffer`: empty prefix, date and microsecond flags, empty sink. -/
def createLogger : logger := ⟨"", Ldate ||| Lmicroseconds, []⟩

/-- The line terminator `log.Logger.Output` adds: a newline unless the text
already ends with one. -/
def lineEnd (s : String) : String :=
  if s.data.getLast? = some '\n' then "" else "\n"

/-- `log.Logger.Output`: one `Write` of prefix, time header `ts`, the text and
the line terminator. -/
def logger.write (l : logger) (ts : String) (s : String) : logger :=
  { l with sink := l.sink ++ [l.pfx ++ ts ++ s ++ lineEnd s] }

/-- `(*logger).output`: `Print(format)` when there are no operands, otherwise
`Printf(format, v...)`. -/
def logger.output (l : logger) (ts : String) (format : String) (v : List Arg) : logger :=
  if v.length = 0 then l.write ts format
  else l.write ts (Sprintf format v)

/-- `(*logger).Errorf`. -/
def logger.Errorf (l : logger) (ts : String) (format : String) (v : List Arg) : logger :=
  l.output ts ("ERROR RESTY " ++ format) v

/-- `(*logger).Warnf`. -/
def logger.Warnf (l : logger) (ts : String) (format : String) (v : List Arg) : logger :=
  l.output ts ("WARN RESTY " ++ format) v

/-- `(*logger).Debugf`. -/
def logger.Debugf (l : logger) (ts : String) (format : String) (v : List Arg) : logger :=
  l.output ts ("DEBUG RESTY " ++ format) v

/-- `logBuf.String()`: the concatenation of everything written to the sink. -/
def logger.bufString (l : logger) : String := String.join l.sink

/-! ## The HTTP client as seen by the retry loop -/

/-- A `*resty.Response` as far as the program reads it: `StatusCode()`,
`Status()`, `String()` (the body), the envelope resty deserialised for
`SetResult(ResponseAPI{})`, the `%+v` text of `Request.TraceInfo()`, and the
`Content-Type` header. -/
structure Response where
  StatusCode : Nat
  Status : String
  body : String
  Result : ResponseAPI
  traceInfo : String
  contentType : String
deriving DecidableEq, Repr

/-- `(*resty.Response).IsSuccess`: status code above 199 and below 300. -/
def Response.IsSuccess (r : Response) : Bool :=
  decide (r.StatusCode > 199) && decide (r.StatusCode < 300)

/-- The `*resty.Response` as a formatting operand: it has a `String()` method,
so `%v` and `%s` print the body. -/
def Response.toArg (r : Response) : Arg := ⟨"*resty.Response", r.body, r.body, r.body⟩

/-- What `Post` returns.

* `failure resp err`: a transport error (DNS, connect, timeout); `err` is not
  nil and the response pointer may or may not be nil.
* `undecoded resp err`: the server answered with `resp`, but resty could not
  decode its body into the `SetResult` target; `Post` returns the response
  together with the non-nil decoding error.
* `reply resp`: `(resp, nil)`, with a response that is always present. -/
inductive Outcome
  | failure (resp : Option Response) (err : GoError)
  | undecoded (resp : Response) (err : GoError)
  | reply (resp : Response)
deriving DecidableEq, Repr

/-- The response pointer `Post` returns. -/
def Outcome.resp : Outcome → Option Response
  | .failure r _ => r
  | .undecoded r _ => some r
  | .reply r => some r

/-- The error `Post` returns. -/
def Outcome.err : Outcome → Option GoError
  | .failure _ e => some e
  | .undecoded _ e => some e
  | .reply _ => none

/-- The three levels of the `Logger` interface. -/
inductive Level
  | error
  | warn
  | debug
deriving DecidableEq, Repr

/-- One call resty makes on the logger handed to it with `SetLogger`. -/
structure LogCall where
  level : Level
  format : String
  args : List Arg
deriving DecidableEq, Repr

/-- One execution of `client.R()....Post(url)`: the calls resty makes on the
logger while the request runs (debug dumps, warnings), then the result. -/
structure Attempt where
  logs : List LogCall
  outcome : Outcome
deriving DecidableEq, Repr

/-- The value of `ctx.Err()` when it is not nil. -/
inductive CtxErr
  | Canceled
  | DeadlineExceeded
deriving DecidableEq, Repr

/-- The errors `context.Canceled` and `context.DeadlineExceeded`. -/
def CtxErr.toError : CtxErr → GoError
  | .Canceled => ⟨"*errors.errorString", "context canceled"⟩
  | .DeadlineExceeded => ⟨"context.deadlineExceededError", "context deadline exceeded"⟩

/-- Everything outside the program.

* `post n` is what the `n`-th call of `Post` does (attempts are numbered from 1).
* `grants` are the durations, in nanoseconds, that successive calls of
  `bo.NextBackOff()` return after `RetryNotify` has reset the policy; the call
  after the last of them returns `backoff.Stop`.  The list is finite because
  `MaxElapsedTime` is set (5s) and every granted wait is slept in full.
* `ctxErr` is `ctx.Err()` of the 30s context when the failure branch reads it.
* `stamp k` is the time header `log.Logger` puts on the line written when the
  buffer already holds `k` lines; `stdStamp k` likewise for the standard logger.
* `durationString` is `time.Duration.String`.
* `cookies` is the `%v` text of the cookie slice, `elapsed` that of
  `bo.GetElapsedTime()` in `printBackoffValues`.
* `tGet` and `tSet` are `time.Now().UnixNano()` at the cache lookup and store. -/
structure World where
  post : Nat → Attempt
  grants : List Nat
  ctxErr : Option CtxErr
  stamp : Nat → String
  stdStamp : Nat → String
  durationString : Nat → String
  cookies : String
  elapsed : String
  tGet : Int
  tSet : Int

/-! ## Program state -/

/-- The variables of `main` that change while it runs, and its output streams:
the counter `attempt`, the pointer `response`, the logger with its buffer
`logBuf`, what went to standard error and to standard output, and the waits the
retry loop slept through (nanoseconds, oldest first). -/
structure St where
  attempt : Nat
  response : Option Response
  log : logger
  stderr : List String
  stdout : List String
  waits : List Nat
deriving DecidableEq, Repr

/-- A call of `Errorf`, `Warnf` or `Debugf` on the program's logger. -/
def St.logf (w : World) (s : St) (lv : Level) (format : String) (v : List Arg) : St :=
  let ts := w.stamp s.log.sink.length
  match lv with
  | .error => { s with log := s.log.Errorf ts format v }
  | .warn => { s with log := s.log.Warnf ts format v }
  | .debug => { s with log := s.log.Debugf ts format v }

/-- `fmt.Printf(format, v...)` to standard output. -/
def St.Printf (s : St) (format : String) (v : List Arg) : St :=
  { s with stdout := s.stdout ++ [Sprintf format v] }

/-- `fmt.Println(x)` with one string operand. -/
def St.Println (s : St) (x : String) : St :=
  { s with stdout := s.stdout ++ [x ++ "\n"] }

/-- `fmt.Errorf(format, v...)` without `%w`. -/
def fmtErrorf (format : String) (v : List Arg) : GoError :=
  ⟨"*errors.errorString", Sprintf format v⟩

/-- A `time.Duration` as a formatting operand. -/
def durationArg (w : World) (d : Nat) : Arg :=
  ⟨"time.Duration", w.durationString d, w.durationString d, w.durationString d⟩

/-! ## The retry loop -/

/-- The closure `operation`: count the attempt, announce it on the standard
logger, post, store the response, and classify the result: with `err != nil`
(either kind of error `Post` returns) log it and return it, else with a status
code of 500 or more return a new server error, else return nil. -/
def operation (w : World) (s : St) : St × Option GoError :=
  let s := { s with attempt := s.attempt + 1 }
  let s := { s with stderr := s.stderr ++
    [w.stdStamp s.stderr.length ++ "attempting operation " ++ toString s.attempt ++ "\n"] }
  let a := w.post s.attempt
  let s := a.logs.foldl (fun t c => t.logf w c.level c.format c.args) s
  let s := { s with response := a.outcome.resp }
  match a.outcome with
  | .failure _ err => (s.logf w .error "Request failed: %v" [err.toArg], some err)
  | .undecoded _ err => (s.logf w .error "Request failed: %v" [err.toArg], some err)
  | .reply r =>
    if r.StatusCode ≥ 500 then (s, some (fmtErrorf "server error: %v" [Arg.ofString r.Status]))
    else (s, none)

/-- The closure `notify`. -/
def notify (w : World) (s : St) (err : GoError) (duration : Nat) : St :=
  s.logf w .warn "Error: %v, backing off for %s" [err.toArg, durationArg w duration]

/-- The timer of the retry loop: `t.Start(next)` and the wait for it to fire.
The wait is recorded in `waits`. -/
def St.sleep (s : St) (next : Nat) : St :=
  { s with waits := s.waits ++ [next] }

/-- The loop of `backoff.RetryNotify(operation, bo, notify)` after `b.Reset()`:
run the operation; on `nil` return; otherwise ask `NextBackOff`, return the
error on `Stop`, else notify, sleep for the granted duration and go round again.
The argument is what is left of `World.grants`.  The policy carries no context
of its own, so the loop sees `context.Background()` and never returns a context
error, and no error of the operation is a `*backoff.PermanentError`. -/
def RetryNotify (w : World) : List Nat → St → St × Option GoError
  | [], s =>
    match operation w s with
    | (s1, none) => (s1, none)
    | (s1, some err) => (s1, some err)
  | next :: rest, s =>
    match operation w s with
    | (s1, none) => (s1, none)
    | (s1, some err) =>
      RetryNotify w rest ((notify w s1 err next).sleep next)

/-! ## The cache (`patrickmn/go-cache`) -/

/-- A cache item: the stored object and its expiry in Unix nanoseconds, `0` for
an item that never expires. -/
structure Item where
  Object : ResponseAPI
  Expiration : Int
deriving DecidableEq, Repr

/-- The cache: its default time to live and its items by key. -/
structure Cache where
  defaultExpiration : Int
  items : List (String × Item)
deriving DecidableEq, Repr

/-- The duration `cache.DefaultExpiration`. -/
def DefaultExpiration : Int := 0

/-- The duration `cache.NoExpiration`. -/
def NoExpiration : Int := -1

/-- One second in nanoseconds (`time.Second`). -/
def Second : Nat := 1000000000
/-- One minute in nanoseconds (`time.Minute`). -/
def Minute : Nat := 60 * Second

/-- `cache.New(defaultExpiration, cleanupInterval)`: an empty cache; a default of
`0` means no expiry.  The janitor only deletes items that `Get` already treats
as absent. -/
def Cache.New (defaultExpiration _cleanupInterval : Int) : Cache :=
  ⟨if defaultExpiration = 0 then NoExpiration else defaultExpiration, []⟩

/-- `(*Cache).Set(k, x, d)` at time `now`. -/
def Cache.Set (c : Cache) (k : String) (x : ResponseAPI) (d : Int) (now : Int) : Cache :=
  let d := if d = DefaultExpiration then c.defaultExpiration else d
  let e := if d > 0 then now + d else 0
  { c with items := (k, ⟨x, e⟩) :: c.items.filter (fun p => p.1 ≠ k) }

/-- `(*Cache).Get(k)` at time `now`: the object, or nothing when the key is
absent or the item has expired. -/
def Cache.Get (c : Cache) (k : String) (now : Int) : Option ResponseAPI :=
  match c.items.lookup k with
  | none => none
  | some item =>
    if item.Expiration > 0 ∧ now > item.Expiration then none else some item.Object

/-- `ResponseAPI` printed with `%v`: the struct in braces. -/
def ResponseAPI.toArg (x : ResponseAPI) : Arg :=
  let t := "\x7b" ++ toString x.Success ++ " " ++ x.Message ++ " " ++ (x.Data.getD "<nil>") ++ "\x7d"
  ⟨"main.ResponseAPI", t, t, t⟩

/-! ## `main` -/

/-- Where `main` stops: the `return` of the failure branch, the `return` of the
cache-hit branch, the `return` of the second error check, the nil dereference
`response.IsSuccess()` would cause, or the end of either final branch. -/
inductive Exit
  | loopError
  | cacheHit
  | secondErrCheck
  | nilResponse
  | successBranch
  | errorResponseBranch
deriving DecidableEq, Repr

/-- The observable result of a run. -/
structure Final where
  st : St
  cache : Option Cache
  exit : Exit
deriving DecidableEq, Repr

/-- `printBackoffValues(bo)` with the configuration `main` has set. -/
def printBackoffValues (w : World) (s : St) : St :=
  let s := s.Printf "InitialInterval: %v\n" [durationArg w (1 * Second)]
  let s := s.Printf "RandomizationFactor: %v\n" [⟨"float64", "0.5", "0.5", "%!s(float64=0.5)"⟩]
  let s := s.Printf "Multiplier: %v\n" [⟨"float64", "2", "2", "%!s(float64=2)"⟩]
  let s := s.Printf "MaxInterval: %v\n" [durationArg w (5 * Second)]
  let s := s.Printf "MaxElapsedTime: %v\n" [durationArg w (5 * Second)]
  let s := s.Printf "CurrentInterval: %v\n" [⟨"time.Duration", w.elapsed, w.elapsed, w.elapsed⟩]
  s.Printf "Clock: %v\n" [⟨"backoff.systemClock", "\x7b\x7d", "\x7b\x7d", "\x7b\x7d"⟩]

/-- The part of `main` up to the call of `RetryNotify`. -/
def mainInit (w : World) : St :=
  let s : St := ⟨0, none, createLogger, [], [], []⟩
  let s := printBackoffValues w s
  s.logf w .debug "cookies: %v" [⟨"[]*http.Cookie", w.cookies, w.cookies, w.cookies⟩]

/-- The failure branch right after the loop (`if err != nil { ... return }`). -/
def mainFailure (w : World) (s : St) (err : GoError) : Final :=
  let s :=
    if w.ctxErr = some CtxErr.DeadlineExceeded then
      s.logf w .error "Context deadline exceeded: %v" [CtxErr.DeadlineExceeded.toError.toArg]
    else
      s.logf w .error "Final error: %v" [err.toArg]
  ⟨s.Printf "Error: %v\n" [err.toArg], none, .loopError⟩

/-- The rest of `main`, from `cache.New` on, for the state and the value of
`err` the loop has left. -/
def mainTail (w : World) (s : St) (err : Option GoError) : Final :=
  let c := Cache.New (5 * Minute) (10 * Minute)
  match c.Get url w.tGet with
  | some cachedResponse =>
    let s := s.Println "Using cached response"
    ⟨s.Printf "Response: %v\n" [cachedResponse.toArg], some c, .cacheHit⟩
  | none =>
    let s := s.Println "Log Output:"
    let s := s.Println s.log.bufString
    let s :=
      match s.response with
      | some r => s.logf w .debug "Trace Information:\n%+v"
          [⟨"resty.TraceInfo", r.traceInfo, r.traceInfo, r.traceInfo⟩]
      | none => s
    match err with
    | some e => ⟨s.Printf "Error: %v\n" [e.toArg], some c, .secondErrCheck⟩
    | none =>
      match s.response with
      | none => ⟨s.Printf "Response: %v\n" [⟨"*resty.Response", "<nil>", "<nil>", "<nil>"⟩],
          some c, .nilResponse⟩
      | some response =>
        let s := s.Printf "Response: %v\n" [response.toArg]
        if response.IsSuccess then
          let c := c.Set url ResponseAPI.zero DefaultExpiration w.tSet
          let s := s.Printf "Response Status Code: %v\n" [Arg.ofInt response.StatusCode]
          ⟨s.Printf "Response Body: %s\n" [Arg.ofString response.body], some c, .successBranch⟩
        else
          let s := s.Printf "Error Response Status Code: %v\n" [Arg.ofInt response.StatusCode]
          let s := s.Printf "Error Response Body: %s\n" [Arg.ofString response.body]
          ⟨s.Printf "Error Content-Type Header: %v\n" [Arg.ofString response.contentType],
            some c, .errorResponseBranch⟩

/-- The function `main`: the set-up, the retry loop, the failure branch when
the loop returned an error, and otherwise the rest with the same `err`. -/
def main (w : World) : Final :=
  let r := RetryNotify w w.grants (mainInit w)
  match r.2 with
  | some err => mainFailure w r.1 err
  | none => mainTail w r.1 r.2

/-! ## Sample worlds -/

/-- A response with the given status code, status line and body. -/
def sampleResponse (code : Nat) (status body : String) (env : ResponseAPI) : Response :=
  ⟨code, status, body, env, "\x7bTotalTime:1ms\x7d", "application/json"⟩

/-- The response `200 OK` of the sample worlds, with a filled envelope. -/
def ok200 : Response :=
  sampleResponse 200 "200 OK" "\x7b\"success\":true,\"message\":\"created\"\x7d" ⟨true, "created", none⟩

/-- The response `404 Not Found` of the sample worlds. -/
def notFound404 : Response :=
  sampleResponse 404 "404 Not Found" "no such user" ResponseAPI.zero

/-- A transport error of the sample worlds. -/
def refused : GoError := ⟨"*url.Error", "connection refused"⟩

/-- A world in which every attempt is answered by `post`, with the given
grants and context error and fixed texts for the clock-dependent renderings. -/
def sampleWorld (post : Nat → Attempt) (grants : List Nat) (ctxErr : Option CtxErr) : World :=
  { post := post, grants := grants, ctxErr := ctxErr,
    stamp := fun _ => "T ", stdStamp := fun _ => "S ",
    durationString := fun d => toString (d / Second) ++ "s",
    cookies := "[c1 c2]", elapsed := "1ms", tGet := 100, tSet := 200 }

/-- The server answers 404 at once. -/
def world404 : World :=
  sampleWorld (fun _ => ⟨[], .reply notFound404⟩) [1 * Second, 2 * Second] none

/-- The server answers 200 at once. -/
def world200 : World :=
  sampleWorld (fun _ => ⟨[], .reply ok200⟩) [1 * Second] none

/-- No connection can be made; the policy grants one wait and then stops. -/
def worldDown : World :=
  sampleWorld (fun _ => ⟨[⟨.debug, "dial %v", [Arg.ofString "tcp"]⟩], .failure none refused⟩)
    [1 * Second] none

/-- The response `200 OK` with a body cut short, which does not decode. -/
def truncated200 : Response :=
  sampleResponse 200 "200 OK" "\x7b\"success\":tr" ResponseAPI.zero

/-- The decoding error resty returns for `truncated200`. -/
def badJSON : GoError := ⟨"*json.SyntaxError", "unexpected end of JSON input"⟩

/-- The server answers 200 every time with a body that does not decode; the
policy grants one wait and then stops. -/
def worldBadBody : World :=
  sampleWorld (fun _ => ⟨[], .undecoded truncated200 badJSON⟩) [1 * Second] none

/-- As `worldDown`, with the 30s context expired when the failure branch runs. -/
def worldLate : World :=
  sampleWorld (fun _ => ⟨[], .failure none ⟨"*url.Error", "context deadline exceeded"⟩⟩)
    [] (some .DeadlineExceeded)

/-! ## The classification the specification gives -/

/-- The specification's retryability policy: a transport error, or a response
with status code at least 500.  A body that does not decode is not a transport
error, so such an outcome is retryable only through its status code. -/
def retryable : Outcome → Bool
  | .failure _ _ => true
  | .undecoded r _ => decide (r.StatusCode ≥ 500)
  | .reply r => decide (r.StatusCode ≥ 500)

/-- The test `operation` applies to what `Post` returned: a non-nil error of
either kind, or a status code of 500 or more. -/
def reportsError : Outcome → Bool
  | .failure _ _ => true
  | .undecoded _ _ => true
  | .reply r => decide (r.StatusCode ≥ 500)

/-- The text `output` hands to the `log.Logger`: the template as it is when no
operand is given, the formatted template otherwise. -/
def renderedText (format : String) (v : List Arg) : String :=
  if v.length = 0 then format else Sprintf format v

/-- The text of the error-level line the failure branch logs: the
deadline line when `ctx.Err()` is `context.DeadlineExceeded`, the final-error
line carrying the loop's error otherwise. -/
def failureText (ctxErr : Option CtxErr) (err : GoError) : String :=
  if ctxErr = some CtxErr.DeadlineExceeded then
    "ERROR RESTY Context deadline exceeded: context deadline exceeded"
  else "ERROR RESTY Final error: " ++ err.msg

/-! ## Lemmas on formatting and the logger -/

theorem sprintfChars_literal (p f : List Char) (v : List Arg) (hp : '%' ∉ p) :
    sprintfChars .text (p ++ f) v = p ++ sprintfChars .text f v := by
  induction p with
  | nil => rfl
  | cons c cs ih =>
    have hc : c ≠ '%' := fun h => hp (by simp [h])
    have hcs : '%' ∉ cs := fun h => hp (List.mem_cons_of_mem _ h)
    simp [sprintfChars, hc, ih hcs]

theorem Sprintf_literal (p format : String) (v : List Arg) (hp : '%' ∉ p.data) :
    Sprintf (p ++ format) v = p ++ Sprintf format v := by
  apply String.ext
  simp [Sprintf, sprintfChars_literal _ _ _ hp]

theorem output_eq (l : logger) (ts format : String) (v : List Arg) :
    l.output ts format v = l.write ts (renderedText format v) := by
  unfold logger.output renderedText
  split <;> rfl

theorem renderedText_literal (p format : String) (v : List Arg) (hp : '%' ∉ p.data) :
    renderedText (p ++ format) v = p ++ renderedText format v := by
  unfold renderedText
  split
  · rfl
  · exact Sprintf_literal p format v hp

theorem logf_log (w : World) (s : St) (lv : Level) (format : String) (v : List Arg) :
    ∃ text, (s.logf w lv format v).log =
      { s.log with sink := s.log.sink ++ [s.log.pfx ++ w.stamp s.log.sink.length ++ text ++ lineEnd text] } := by
  cases lv
  · exact ⟨renderedText ("ERROR RESTY " ++ format) v, by
      simp [St.logf, logger.Errorf, output_eq, logger.write]⟩
  · exact ⟨renderedText ("WARN RESTY " ++ format) v, by
      simp [St.logf, logger.Warnf, output_eq, logger.write]⟩
  · exact ⟨renderedText ("DEBUG RESTY " ++ format) v, by
      simp [St.logf, logger.Debugf, output_eq, logger.write]⟩

theorem logf_frame (w : World) (s : St) (lv : Level) (format : String) (v : List Arg) :
    (s.logf w lv format v).attempt = s.attempt ∧
    (s.logf w lv format v).response = s.response ∧
    (s.logf w lv format v).stderr = s.stderr ∧
    (s.logf w lv format v).stdout = s.stdout ∧
    (s.logf w lv format v).waits = s.waits := by
  cases lv <;> simp [St.logf]

theorem foldl_logf_frame (w : World) (cs : List LogCall) (s : St) :
    (cs.foldl (fun t c => t.logf w c.level c.format c.args) s).attempt = s.attempt ∧
    (cs.foldl (fun t c => t.logf w c.level c.format c.args) s).stderr = s.stderr ∧
    (cs.foldl (fun t c => t.logf w c.level c.format c.args) s).stdout = s.stdout ∧
    (cs.foldl (fun t c => t.logf w c.level c.format c.args) s).waits = s.waits := by
  induction cs generalizing s with
  | nil => simp
  | cons c cs ih =>
    obtain ⟨h1, _, h3, h4, h5⟩ := logf_frame w s c.level c.format c.args
    obtain ⟨i1, i3, i4, i5⟩ := ih (s.logf w c.level c.format c.args)
    simp only [List.foldl_cons]
    exact ⟨i1.trans h1, i3.trans h3, i4.trans h4, i5.trans h5⟩

theorem operation_frame (w : World) (s : St) :
    (operation w s).1.attempt = s.attempt + 1 ∧
    (operation w s).1.response = (w.post (s.attempt + 1)).outcome.resp ∧
    (operation w s).1.stdout = s.stdout ∧
    (operation w s).1.waits = s.waits := by
  obtain ⟨f1, _, f3, f4⟩ := foldl_logf_frame w (w.post (s.attempt + 1)).logs
    { s with attempt := s.attempt + 1, stderr := s.stderr ++
      [w.stdStamp s.stderr.length ++ "attempting operation " ++ toString (s.attempt + 1) ++ "\n"] }
  unfold operation
  cases h : (w.post (s.attempt + 1)).outcome with
  | failure resp err =>
    simp only [h]
    obtain ⟨g1, g2, _, g4, g5⟩ := logf_frame w
      { (List.foldl (fun t c => t.logf w c.level c.format c.args)
          { s with attempt := s.attempt + 1, stderr := s.stderr ++
            [w.stdStamp s.stderr.length ++ "attempting operation " ++ toString (s.attempt + 1) ++ "\n"] }
          (w.post (s.attempt + 1)).logs) with response := (Outcome.failure resp err).resp }
      .error "Request failed: %v" [err.toArg]
    refine ⟨g1.trans ?_, g2.trans ?_, g4.trans ?_, g5.trans ?_⟩
    · exact f1
    · rfl
    · exact f3
    · exact f4
  | undecoded resp err =>
    simp only [h]
    obtain ⟨g1, g2, _, g4, g5⟩ := logf_frame w
      { (List.foldl (fun t c => t.logf w c.level c.format c.args)
          { s with attempt := s.attempt + 1, stderr := s.stderr ++
            [w.stdStamp s.stderr.length ++ "attempting operation " ++ toString (s.attempt + 1) ++ "\n"] }
          (w.post (s.attempt + 1)).logs) with response := (Outcome.undecoded resp err).resp }
      .error "Request failed: %v" [err.toArg]
    refine ⟨g1.trans ?_, g2.trans ?_, g4.trans ?_, g5.trans ?_⟩
    · exact f1
    · rfl
    · exact f3
    · exact f4
  | reply r =>
    simp only [h]
    split
    · exact ⟨f1, rfl, f3, f4⟩
    · exact ⟨f1, rfl, f3, f4⟩

theorem operation_err (w : World) (s : St) :
    (operation w s).2 =
      match (w.post (s.attempt + 1)).outcome with
      | .failure _ err => some err
      | .undecoded _ err => some err
      | .reply r =>
        if r.StatusCode ≥ 500 then some (fmtErrorf "server error: %v" [Arg.ofString r.Status])
        else none := by
  unfold operation
  cases h : (w.post (s.attempt + 1)).outcome with
  | failure resp err => simp only [h]
  | undecoded resp err => simp only [h]
  | reply r =>
    simp only [h]
    split <;> rfl

theorem operation_isSome (w : World) (s : St) :
    (operation w s).2.isSome = reportsError (w.post (s.attempt + 1)).outcome := by
  rw [operation_err]
  cases (w.post (s.attempt + 1)).outcome with
  | failure resp err => rfl
  | undecoded resp err => rfl
  | reply r =>
    by_cases h : r.StatusCode ≥ 500 <;> simp [reportsError, h]

theorem RetryNotify_of_none (w : World) (grants : List Nat) (s : St)
    (h : (operation w s).2 = none) :
    RetryNotify w grants s = ((operation w s).1, none) := by
  cases grants with
  | nil =>
    unfold RetryNotify
    split
    · next s1 heq => rw [heq]
    · next s1 err heq => rw [heq] at h; cases h
  | cons next rest =>
    unfold RetryNotify
    split
    · next s1 heq => rw [heq]
    · next s1 err heq => rw [heq] at h; cases h

theorem RetryNotify_stop (w : World) (s : St) (err : GoError)
    (h : (operation w s).2 = some err) :
    RetryNotify w [] s = ((operation w s).1, some err) := by
  unfold RetryNotify
  split
  · next s1 heq => rw [heq] at h; cases h
  · next s1 e heq =>
    rw [heq] at h
    cases h
    rw [heq]

theorem RetryNotify_step (w : World) (next : Nat) (rest : List Nat) (s : St) (err : GoError)
    (h : (operation w s).2 = some err) :
    RetryNotify w (next :: rest) s =
      RetryNotify w rest ((notify w (operation w s).1 err next).sleep next) := by
  conv => lhs; unfold RetryNotify
  split
  · next s1 heq => rw [heq] at h; cases h
  · next s1 e heq =>
    rw [heq] at h
    cases h
    rw [heq]

theorem notify_frame (w : World) (s : St) (err : GoError) (d : Nat) :
    (notify w s err d).attempt = s.attempt ∧
    (notify w s err d).response = s.response ∧
    (notify w s err d).stdout = s.stdout ∧
    (notify w s err d).waits = s.waits := by
  obtain ⟨h1, h2, _, h4, h5⟩ :=
    logf_frame w s .warn "Error: %v, backing off for %s" [err.toArg, durationArg w d]
  exact ⟨h1, h2, h4, h5⟩

/-- What holds of the state and error `RetryNotify` returns, whatever the world. -/
theorem RetryNotify_spec (w : World) (grants : List Nat) (s : St) :
    (RetryNotify w grants s).1.stdout = s.stdout ∧
    s.attempt < (RetryNotify w grants s).1.attempt ∧
    (RetryNotify w grants s).1.attempt ≤ s.attempt + grants.length + 1 ∧
    (RetryNotify w grants s).1.response =
      (w.post (RetryNotify w grants s).1.attempt).outcome.resp ∧
    (RetryNotify w grants s).2.isSome =
      reportsError (w.post (RetryNotify w grants s).1.attempt).outcome := by
  induction grants generalizing s with
  | nil =>
    obtain ⟨f1, f2, f3, _⟩ := operation_frame w s
    have hs := operation_isSome w s
    cases h : (operation w s).2 with
    | none =>
      rw [RetryNotify_of_none w [] s h]
      simp only [f1, f2, f3, List.length_nil]
      rw [h] at hs
      exact ⟨trivial, by omega, by omega, trivial, hs⟩
    | some err =>
      rw [RetryNotify_stop w s err h]
      simp only [f1, f2, f3, List.length_nil]
      rw [h] at hs
      exact ⟨trivial, by omega, by omega, trivial, hs⟩
  | cons next rest ih =>
    obtain ⟨f1, f2, f3, _⟩ := operation_frame w s
    have hs := operation_isSome w s
    cases h : (operation w s).2 with
    | none =>
      rw [RetryNotify_of_none w (next :: rest) s h]
      simp only [f1, f2, f3, List.length_cons]
      rw [h] at hs
      exact ⟨trivial, by omega, by omega, trivial, hs⟩
    | some err =>
      rw [RetryNotify_step w next rest s err h]
      obtain ⟨n1, _, n3, _⟩ := notify_frame w (operation w s).1 err next
      obtain ⟨i1, i2, i3, i4, i5⟩ := ih ((notify w (operation w s).1 err next).sleep next)
      have t1 : ((notify w (operation w s).1 err next).sleep next).attempt = s.attempt + 1 :=
        n1.trans f1
      have t3 : ((notify w (operation w s).1 err next).sleep next).stdout = s.stdout :=
        n3.trans f3
      rw [t1] at i2 i3
      rw [t3] at i1
      refine ⟨i1, by omega, ?_, i4, i5⟩
      simp only [List.length_cons]
      omega

theorem Get_New (d c : Int) (k : String) (now : Int) :
    (Cache.New d c).Get k now = none := by
  simp [Cache.New, Cache.Get, List.lookup]

theorem printBackoffValues_frame (w : World) (s : St) :
    (printBackoffValues w s).attempt = s.attempt ∧
    (printBackoffValues w s).response = s.response ∧
    (printBackoffValues w s).log = s.log ∧
    (printBackoffValues w s).waits = s.waits := by
  simp [printBackoffValues, St.Printf]

theorem mainInit_frame (w : World) :
    (mainInit w).attempt = 0 ∧ (mainInit w).response = none ∧ (mainInit w).waits = [] := by
  obtain ⟨h1, h2, _, _, h5⟩ := logf_frame w
    (printBackoffValues w ⟨0, none, createLogger, [], [], []⟩) .debug "cookies: %v"
    [⟨"[]*http.Cookie", w.cookies, w.cookies, w.cookies⟩]
  obtain ⟨p1, p2, _, p4⟩ := printBackoffValues_frame w ⟨0, none, createLogger, [], [], []⟩
  exact ⟨h1.trans p1, h2.trans p2, h5.trans p4⟩

/-- The final part of `main` when `err` is nil and a response is stored. -/
theorem mainTail_reply (w : World) (s : St) (r : Response) (h : s.response = some r) :
    (mainTail w s none).exit =
      (if r.IsSuccess then Exit.successBranch else Exit.errorResponseBranch) ∧
    (mainTail w s none).cache = some
      (if r.IsSuccess then
        (Cache.New (5 * Minute) (10 * Minute)).Set url ResponseAPI.zero DefaultExpiration w.tSet
      else Cache.New (5 * Minute) (10 * Minute)) ∧
    (mainTail w s none).st.stdout =
      s.stdout ++ (["Log Output:\n", s.log.bufString ++ "\n", Sprintf "Response: %v\n" [r.toArg]] ++
        (if r.IsSuccess then
          [Sprintf "Response Status Code: %v\n" [Arg.ofInt r.StatusCode],
           Sprintf "Response Body: %s\n" [Arg.ofString r.body]]
        else
          [Sprintf "Error Response Status Code: %v\n" [Arg.ofInt r.StatusCode],
           Sprintf "Error Response Body: %s\n" [Arg.ofString r.body],
           Sprintf "Error Content-Type Header: %v\n" [Arg.ofString r.contentType]])) := by
  unfold mainTail
  simp only [Get_New]
  by_cases hs : r.IsSuccess = true
  · simp [St.Println, St.Printf, h, hs, St.logf, logger.Debugf, logger.output]
  · simp [St.Println, St.Printf, h, hs, St.logf, logger.Debugf, logger.output]

theorem logf_pfx (w : World) (s : St) (lv : Level) (format : String) (v : List Arg) :
    (s.logf w lv format v).log.pfx = s.log.pfx := by
  obtain ⟨text, h⟩ := logf_log w s lv format v
  rw [h]

theorem foldl_logf_pfx (w : World) (cs : List LogCall) (s : St) :
    (cs.foldl (fun t c => t.logf w c.level c.format c.args) s).log.pfx = s.log.pfx := by
  induction cs generalizing s with
  | nil => rfl
  | cons c cs ih =>
    simp only [List.foldl_cons]
    exact (ih _).trans (logf_pfx w s c.level c.format c.args)

theorem operation_pfx (w : World) (s : St) : (operation w s).1.log.pfx = s.log.pfx := by
  have f := foldl_logf_pfx w (w.post (s.attempt + 1)).logs
    { s with attempt := s.attempt + 1, stderr := s.stderr ++
      [w.stdStamp s.stderr.length ++ "attempting operation " ++ toString (s.attempt + 1) ++ "\n"] }
  unfold operation
  cases h : (w.post (s.attempt + 1)).outcome with
  | failure resp err =>
    simp only [h]
    exact (logf_pfx w _ .error "Request failed: %v" [err.toArg]).trans f
  | undecoded resp err =>
    simp only [h]
    exact (logf_pfx w _ .error "Request failed: %v" [err.toArg]).trans f
  | reply r =>
    simp only [h]
    split <;> exact f

theorem RetryNotify_pfx (w : World) (grants : List Nat) (s : St) :
    (RetryNotify w grants s).1.log.pfx = s.log.pfx := by
  induction grants generalizing s with
  | nil =>
    cases h : (operation w s).2 with
    | none => rw [RetryNotify_of_none w [] s h]; exact operation_pfx w s
    | some err => rw [RetryNotify_stop w s err h]; exact operation_pfx w s
  | cons next rest ih =>
    cases h : (operation w s).2 with
    | none => rw [RetryNotify_of_none w (next :: rest) s h]; exact operation_pfx w s
    | some err =>
      rw [RetryNotify_step w next rest s err h, ih]
      exact (logf_pfx w _ .warn _ _).trans (operation_pfx w s)

theorem mainInit_pfx (w : World) : (mainInit w).log.pfx = "" := by
  unfold mainInit
  rw [logf_pfx, (printBackoffValues_frame w _).2.2.1]
  rfl

theorem Sprintf_verb_v (a : Arg) : Sprintf "%v" [a] = a.v := by
  simp [Sprintf, sprintfChars, Arg.verb, extraArgs]

theorem Sprintf_Error (a : Arg) : Sprintf "Error: %v\n" [a] = "Error: " ++ a.v ++ "\n" := rfl

/-- The error-level line of the failure branch, as a function of the cause. -/
theorem mainFailure_spec (w : World) (s : St) (err : GoError) (hp : s.log.pfx = "") :
    (mainFailure w s err).exit = Exit.loopError ∧
    (mainFailure w s err).cache = none ∧
    (mainFailure w s err).st.stdout = s.stdout ++ ["Error: " ++ err.msg ++ "\n"] ∧
    (mainFailure w s err).st.log.sink = s.log.sink ++
      [w.stamp s.log.sink.length ++
        failureText w.ctxErr err ++ lineEnd (failureText w.ctxErr err)] := by
  refine ⟨rfl, rfl, ?_, ?_⟩
  · unfold mainFailure
    split <;> simp [St.Printf, St.logf, Sprintf_Error, GoError.toArg]
  · have hF : renderedText ("ERROR RESTY " ++ "Final error: %v") [err.toArg] =
        "ERROR RESTY Final error: " ++ err.msg := by
      rw [renderedText_literal _ _ _ (by decide)]
      simp only [renderedText, List.length_singleton, one_ne_zero, if_false]
      have hS : Sprintf "Final error: %v" [err.toArg] = "Final error: " ++ err.msg := by
        have h := Sprintf_literal "Final error: " "%v" [err.toArg] (by decide)
        rw [Sprintf_verb_v] at h
        exact h
      rw [hS, ← String.append_assoc]
      rfl
    unfold mainFailure failureText
    split
    · next hc =>
      simp only [St.Printf, St.logf, logger.Errorf, output_eq, logger.write, hp, hc]
      rfl
    · next hc =>
      simp only [St.Printf, St.logf, logger.Errorf, output_eq, logger.write, hp, hF, if_neg hc]
      simp

/-! ## The claims -/

/-- C1, as the code has it: `operation` returns a non-nil error exactly when
`Post` returned a non-nil error (a transport error, or a response whose body
did not decode) or a response with status code at least 500, so every outcome
the specification calls retryable is reported as an error; and exactly when
`operation` returns nil the retry loop, whatever waits the policy would still
grant, is that single run of `operation` with the attempt counter one higher
than before and returns no error, as it does for every 4xx status answered
without error. -/
theorem operation_error_iff_post_error_or_5xx (w : World) (s : St) (grants : List Nat) :
    ((operation w s).2.isSome = true ↔
      ((w.post (s.attempt + 1)).outcome.err.isSome = true ∨
        ∃ r, (w.post (s.attempt + 1)).outcome = .reply r ∧ 500 ≤ r.StatusCode)) ∧
    (retryable (w.post (s.attempt + 1)).outcome = true → (operation w s).2.isSome = true) ∧
    ((operation w s).2 = none ↔ RetryNotify w grants s = ((operation w s).1, none)) ∧
    (operation w s).1.attempt = s.attempt + 1 ∧
    (∀ r : Response, (w.post (s.attempt + 1)).outcome = .reply r →
      400 ≤ r.StatusCode → r.StatusCode < 500 →
      RetryNotify w grants s = ((operation w s).1, none)) := by
  have hs := operation_isSome w s
  have hiff : (operation w s).2.isSome = true ↔
      ((w.post (s.attempt + 1)).outcome.err.isSome = true ∨
        ∃ r, (w.post (s.attempt + 1)).outcome = .reply r ∧ 500 ≤ r.StatusCode) := by
    rw [hs]
    cases (w.post (s.attempt + 1)).outcome with
    | failure resp err => simp [reportsError, Outcome.err]
    | undecoded resp err => simp [reportsError, Outcome.err]
    | reply r => simp [reportsError, Outcome.err]
  refine ⟨hiff, fun h => ?_, ⟨fun h => RetryNotify_of_none w grants s h, fun h => ?_⟩,
    (operation_frame w s).1, fun r hr h4 h5 => ?_⟩
  · rw [hs]
    revert h
    cases (w.post (s.attempt + 1)).outcome with
    | failure resp err => simp [reportsError]
    | undecoded resp err => simp [reportsError]
    | reply r => simp [reportsError, retryable]
  · cases ho : (operation w s).2 with
    | none => rfl
    | some err =>
      exfalso
      cases grants with
      | nil =>
        rw [RetryNotify_stop w s err ho] at h
        cases (Prod.mk.inj h).2
      | cons next rest =>
        rw [RetryNotify_step w next rest s err ho] at h
        obtain ⟨_, i2, _⟩ :=
          RetryNotify_spec w rest ((notify w (operation w s).1 err next).sleep next)
        have t1 : ((notify w (operation w s).1 err next).sleep next).attempt = s.attempt + 1 :=
          (notify_frame w (operation w s).1 err next).1.trans (operation_frame w s).1
        rw [h, t1] at i2
        simp only [(operation_frame w s).1] at i2
        omega
  · apply RetryNotify_of_none
    rw [operation_err, hr]
    simp only
    rw [if_neg (by omega)]

/-- C1, as stated, fails when a body does not decode: `Post` answers attempt 1
with a `200 OK` response and a decoding error, which is neither a transport
error nor a status of 500 or more, yet `operation` returns the error and the
loop goes on to a second attempt and ends in the failure branch. -/
theorem undecodable_200_is_retried :
    (worldBadBody.post 1).outcome = .undecoded truncated200 badJSON ∧
    truncated200.StatusCode = 200 ∧
    retryable (worldBadBody.post 1).outcome = false ∧
    (operation worldBadBody (mainInit worldBadBody)).2 = some badJSON ∧
    (RetryNotify worldBadBody worldBadBody.grants (mainInit worldBadBody)).1.attempt = 2 ∧
    (RetryNotify worldBadBody worldBadBody.grants (mainInit worldBadBody)).1.waits =
      [1 * Second] ∧
    (main worldBadBody).exit = Exit.loopError := by
  decide

/-- C3: when the server answers 404 to attempt 1, the retry loop is exactly one
run of `operation` (the counter ends at 1, no `notify`, no wait) and returns no
error; `main` then reports the outcome in its error-response branch: after the
preamble, the log dump and the response it prints `Error Response Status Code:
404`, the error body and the content type, none of the success lines, and it
writes nothing to the cache. -/
theorem client_error_404_single_attempt (w : World) (r : Response)
    (h1 : (w.post 1).outcome = .reply r) (c1 : r.StatusCode = 404) :
    RetryNotify w w.grants (mainInit w) = ((operation w (mainInit w)).1, none) ∧
    (RetryNotify w w.grants (mainInit w)).1.attempt = 1 ∧
    (RetryNotify w w.grants (mainInit w)).1.waits = [] ∧
    (RetryNotify w w.grants (mainInit w)).1.response = some r ∧
    (main w).exit = Exit.errorResponseBranch ∧
    (main w).cache = some (Cache.New (5 * Minute) (10 * Minute)) ∧
    (main w).st.stdout = (mainInit w).stdout ++
      (["Log Output:\n", (operation w (mainInit w)).1.log.bufString ++ "\n",
        Sprintf "Response: %v\n" [r.toArg]] ++
       ["Error Response Status Code: 404\n",
        Sprintf "Error Response Body: %s\n" [Arg.ofString r.body],
        Sprintf "Error Content-Type Header: %v\n" [Arg.ofString r.contentType]]) := by
  obtain ⟨a0, _, w0⟩ := mainInit_frame w
  have e1 : (operation w (mainInit w)).2 = none := by
    rw [operation_err, a0, h1]; simp [c1]
  obtain ⟨fa, fr, fo, fw⟩ := operation_frame w (mainInit w)
  have hrun := RetryNotify_of_none w w.grants (mainInit w) e1
  have hresp : (operation w (mainInit w)).1.response = some r := by
    rw [fr, a0, h1]; rfl
  have hfail : r.IsSuccess = false := by simp [Response.IsSuccess, c1]
  obtain ⟨t1, t2, t3⟩ := mainTail_reply w _ r hresp
  have hmain : main w = mainTail w (operation w (mainInit w)).1 none := by
    unfold main
    rw [hrun]
  refine ⟨hrun, by rw [hrun, fa, a0], by rw [hrun, fw, w0], by rw [hrun]; exact hresp,
    by rw [hmain, t1, hfail]; rfl, by rw [hmain, t2, hfail]; rfl, ?_⟩
  rw [hmain, t3, hfail, c1, fo]
  simp only [Bool.false_eq_true, if_false]
  have h404 : Sprintf "Error Response Status Code: %v\n" [Arg.ofInt 404] =
      "Error Response Status Code: 404\n" := by decide
  rw [h404]

/-- C4: in every run in which the retry loop returns an error, `main` appends
one error-level line to the log, prints `Error: ` followed by the loop's error
as the only output after the backoff preamble, and returns at once: no cache is
created and nothing is stored. -/
theorem failure_prints_error_no_cache_write (w : World) (s : St) (err : GoError)
    (h : RetryNotify w w.grants (mainInit w) = (s, some err)) :
    (main w).exit = Exit.loopError ∧
    (main w).cache = none ∧
    (main w).st.stdout = (mainInit w).stdout ++ ["Error: " ++ err.msg ++ "\n"] ∧
    (∃ text, (main w).st.log.sink = s.log.sink ++
      [w.stamp s.log.sink.length ++ ("ERROR RESTY " ++ text) ++ lineEnd ("ERROR RESTY " ++ text)]) := by
  have hp : s.log.pfx = "" := by
    have := RetryNotify_pfx w w.grants (mainInit w)
    rw [h, mainInit_pfx] at this
    exact this
  have ho : s.stdout = (mainInit w).stdout := by
    have := (RetryNotify_spec w w.grants (mainInit w)).1
    rw [h] at this
    exact this
  have hmain : main w = mainFailure w s err := by
    unfold main
    rw [h]
  obtain ⟨m1, m2, m3, m4⟩ := mainFailure_spec w s err hp
  refine ⟨by rw [hmain, m1], by rw [hmain, m2], by rw [hmain, m3, ho], ?_⟩
  rw [hmain, m4]
  unfold failureText
  split
  · exact ⟨"Context deadline exceeded: context deadline exceeded", rfl⟩
  · have e : "ERROR RESTY " ++ ("Final error: " ++ err.msg) =
        "ERROR RESTY Final error: " ++ err.msg := by
      rw [← String.append_assoc]; rfl
    exact ⟨"Final error: " ++ err.msg, by rw [e]⟩

/-- C6: the cache `main` looks into was created by `cache.New` on the line
before, so the lookup finds nothing at any time and in every world, and `main`
never leaves through the branch that prints `Using cached response`. -/
theorem cache_lookup_never_hits (w : World) (s : St) (err : Option GoError) :
    (Cache.New (5 * Minute) (10 * Minute)).Get url w.tGet = none ∧
    (mainTail w s err).exit ≠ Exit.cacheHit ∧
    (main w).exit ≠ Exit.cacheHit := by
  have ht : ∀ (t : St) (e : Option GoError), (mainTail w t e).exit ≠ Exit.cacheHit := by
    intro t e
    unfold mainTail
    simp only [Get_New]
    repeat' split
    all_goals simp
  refine ⟨Get_New _ _ _ _, ht s err, ?_⟩
  unfold main
  simp only
  split
  · simp [mainFailure]
  · exact ht _ _

/-- C7: in every run in which the retry loop returns an error, `main` leaves
through the failure branch and the log grows by exactly one line, an
error-level line whose text is the `Context deadline exceeded` line when the
context has ended with `DeadlineExceeded` and the `Final error` line carrying
the loop's error otherwise; the two texts are never the same, and either way
the run is reported as a failure by the `Error:` line on standard output. -/
theorem failure_log_distinguishes_cause (w : World) (s : St) (err : GoError)
    (h : RetryNotify w w.grants (mainInit w) = (s, some err)) :
    (main w).exit = Exit.loopError ∧
    (main w).st.log.sink = s.log.sink ++
      [w.stamp s.log.sink.length ++
        (if w.ctxErr = some CtxErr.DeadlineExceeded then
          "ERROR RESTY Context deadline exceeded: context deadline exceeded\n"
        else
          "ERROR RESTY Final error: " ++ err.msg ++
            lineEnd ("ERROR RESTY Final error: " ++ err.msg))] ∧
    (main w).st.stdout = (mainInit w).stdout ++ ["Error: " ++ err.msg ++ "\n"] ∧
    (∀ m : String, "ERROR RESTY Context deadline exceeded: context deadline exceeded" ≠
      "ERROR RESTY Final error: " ++ m) := by
  have hp : s.log.pfx = "" := by
    have := RetryNotify_pfx w w.grants (mainInit w)
    rw [h, mainInit_pfx] at this
    exact this
  have hmain : main w = mainFailure w s err := by
    unfold main
    rw [h]
  have ho : s.stdout = (mainInit w).stdout := by
    have := (RetryNotify_spec w w.grants (mainInit w)).1
    rw [h] at this
    exact this
  obtain ⟨m1, _, m3, m4⟩ := mainFailure_spec w s err hp
  refine ⟨by rw [hmain, m1], ?_, by rw [hmain, m3, ho], ?_⟩
  · rw [hmain, m4]
    unfold failureText
    split
    · have hl : lineEnd "ERROR RESTY Context deadline exceeded: context deadline exceeded" =
          "\n" := by decide
      rw [hl, String.append_assoc]
      rfl
    · rw [String.append_assoc]
  · intro m hm
    have := congrArg String.data hm
    simp at this

/-- C10: whenever the retry loop returns no error, at least one attempt was
made, the stored response is present and is the response the last attempt
received, its status code is below 500, and `main` leaves neither through the
nil dereference of `response` nor through the second `err != nil` check. -/
theorem response_present_when_loop_succeeds (w : World) (s : St)
    (h : RetryNotify w w.grants (mainInit w) = (s, none)) :
    1 ≤ s.attempt ∧
    (∃ r, s.response = some r ∧ (w.post s.attempt).outcome = .reply r ∧ r.StatusCode < 500) ∧
    (main w).exit ≠ Exit.nilResponse ∧
    (main w).exit ≠ Exit.secondErrCheck := by
  obtain ⟨_, i2, _, i4, i5⟩ := RetryNotify_spec w w.grants (mainInit w)
  rw [h] at i2 i4 i5
  have hr : ∃ r, s.response = some r ∧ (w.post s.attempt).outcome = .reply r ∧
      r.StatusCode < 500 := by
    simp only at i4 i5
    cases ho : (w.post s.attempt).outcome with
    | failure resp e => rw [ho] at i5; simp [reportsError] at i5
    | undecoded resp e => rw [ho] at i5; simp [reportsError] at i5
    | reply r =>
      rw [ho] at i4 i5
      refine ⟨r, i4, rfl, ?_⟩
      simp only [reportsError, Option.isSome_none] at i5
      have := of_decide_eq_false i5.symm
      omega
  obtain ⟨r, hr1, hr2, hr3⟩ := hr
  have hmain : main w = mainTail w s none := by
    unfold main
    rw [h]
  obtain ⟨t1, _, _⟩ := mainTail_reply w s r hr1
  refine ⟨by simp only at i2; omega, ⟨r, hr1, hr2, hr3⟩, ?_, ?_⟩
  · rw [hmain, t1]; split <;> simp
  · rw [hmain, t1]; split <;> simp

/-- C9, as the code has it: each of `Errorf`, `Warnf` and `Debugf` leaves prefix
and flags alone and appends exactly one line to the sink; after the time
header the line is the level prefix followed by the template formatted with the
operands when there is at least one operand, and by the template itself when
there is none, closed by a newline unless it already ends in one. -/
theorem logger_appends_one_line (l : logger) (ts format : String) (v : List Arg) :
    l.Errorf ts format v = { l with sink := l.sink ++
      [l.pfx ++ ts ++ ("ERROR RESTY " ++ renderedText format v) ++
        lineEnd ("ERROR RESTY " ++ renderedText format v)] } ∧
    l.Warnf ts format v = { l with sink := l.sink ++
      [l.pfx ++ ts ++ ("WARN RESTY " ++ renderedText format v) ++
        lineEnd ("WARN RESTY " ++ renderedText format v)] } ∧
    l.Debugf ts format v = { l with sink := l.sink ++
      [l.pfx ++ ts ++ ("DEBUG RESTY " ++ renderedText format v) ++
        lineEnd ("DEBUG RESTY " ++ renderedText format v)] } ∧
    renderedText format [] = format ∧
    (∀ (a : Arg) (rest : List Arg),
      renderedText format (a :: rest) = Sprintf format (a :: rest)) := by
  refine ⟨?_, ?_, ?_, ?_, ?_⟩
  · rw [logger.Errorf, output_eq, renderedText_literal _ _ _ (by decide)]; rfl
  · rw [logger.Warnf, output_eq, renderedText_literal _ _ _ (by decide)]; rfl
  · rw [logger.Debugf, output_eq, renderedText_literal _ _ _ (by decide)]; rfl
  · simp [renderedText]
  · intro a rest
    simp [renderedText]

/-- C9, as stated, fails without operands: `Errorf("100%%")` writes the template
unchanged, `ERROR RESTY 100%%`, while the template formatted with no operands
is `100%`. -/
theorem Errorf_without_operands_not_formatted :
    (createLogger.Errorf "T " "100%%" []).sink = ["T ERROR RESTY 100%%\n"] ∧
    "ERROR RESTY " ++ Sprintf "100%%" [] = "ERROR RESTY 100%" ∧
    (createLogger.Errorf "T " "100%%" []).sink ≠
      createLogger.sink ++ ["T " ++ ("ERROR RESTY " ++ Sprintf "100%%" []) ++ "\n"] := by
  decide

/-- C5 at a run answered `200 OK` with the envelope `success = true, message =
created`: `main` ends in the success branch with that response stored, and the
cache holds under the URL, with the five-minute expiry, the zero envelope and
not the one deserialised from the body. -/
theorem cache_holds_zero_envelope :
    (main world200).exit = Exit.successBranch ∧
    (main world200).st.response = some ok200 ∧
    ok200.Result = ⟨true, "created", none⟩ ∧
    (main world200).cache =
      some ⟨5 * Minute, [(url, ⟨ResponseAPI.zero, world200.tSet + 5 * Minute⟩)]⟩ ∧
    ((main world200).cache.bind fun c => c.Get url (world200.tSet + 1)) =
      some ResponseAPI.zero ∧
    ResponseAPI.zero ≠ ok200.Result := by
  decide

/-- C8 at a run that cannot connect: `main` leaves through the failure branch
with seven lines in the log buffer, and standard output holds the backoff
preamble and the `Error:` line only; and at a run answered `200 OK` the trace
line is logged after the buffer was printed, so the printed text lacks it. -/
theorem log_buffer_not_flushed :
    (main worldDown).exit = Exit.loopError ∧
    (main worldDown).st.log.sink.length = 7 ∧
    (main worldDown).st.stdout =
      ["InitialInterval: 1s\n", "RandomizationFactor: 0.5\n", "Multiplier: 2\n",
       "MaxInterval: 5s\n", "MaxElapsedTime: 5s\n", "CurrentInterval: 1ms\n", "Clock: \x7b\x7d\n",
       "Error: connection refused\n"] ∧
    (main world200).exit = Exit.successBranch ∧
    (main world200).st.log.sink =
      ["T DEBUG RESTY cookies: [c1 c2]\n",
       "T DEBUG RESTY Trace Information:\n\x7bTotalTime:1ms\x7d\n"] ∧
    (main world200).st.stdout.drop 7 =
      ["Log Output:\n", "T DEBUG RESTY cookies: [c1 c2]\n\n",
       "Response: \x7b\"success\":true,\"message\":\"created\"\x7d\n", "Response Status Code: 200\n",
       "Response Body: \x7b\"success\":true,\"message\":\"created\"\x7d\n"] := by
  decide

/-! ## The theorems at concrete runs -/

/-- The run `world404` meets the hypotheses of C3 and ends as C3 says. -/
theorem client_error_404_single_attempt_witness :
    ((world404.post 1).outcome = .reply notFound404 ∧ notFound404.StatusCode = 404) ∧
    ((RetryNotify world404 world404.grants (mainInit world404)).1.attempt = 1 ∧
      (RetryNotify world404 world404.grants (mainInit world404)).1.waits = [] ∧
      (main world404).exit = Exit.errorResponseBranch ∧
      (main world404).cache = some (Cache.New (5 * Minute) (10 * Minute))) :=
  have h := client_error_404_single_attempt world404 notFound404 rfl (by decide)
  ⟨by decide, h.2.1, h.2.2.1, h.2.2.2.2.1, h.2.2.2.2.2.1⟩

/-- The run `worldDown` ends its loop with the transport error, and `main`
then behaves as C4 says. -/
theorem failure_prints_error_no_cache_write_witness :
    RetryNotify worldDown worldDown.grants (mainInit worldDown) =
      ((RetryNotify worldDown worldDown.grants (mainInit worldDown)).1, some refused) ∧
    ((main worldDown).exit = Exit.loopError ∧
      (main worldDown).cache = none ∧
      (main worldDown).st.stdout =
        (mainInit worldDown).stdout ++ ["Error: " ++ refused.msg ++ "\n"]) :=
  have h := failure_prints_error_no_cache_write worldDown
    (RetryNotify worldDown worldDown.grants (mainInit worldDown)).1 refused (by decide)
  ⟨by decide, h.1, h.2.1, h.2.2.1⟩

/-- The run `worldLate` ends its loop with an error after the deadline, and the
last log line is the deadline line, as C7 says. -/
theorem failure_log_distinguishes_cause_witness :
    RetryNotify worldLate worldLate.grants (mainInit worldLate) =
      ((RetryNotify worldLate worldLate.grants (mainInit worldLate)).1,
        some ⟨"*url.Error", "context deadline exceeded"⟩) ∧
    (main worldLate).exit = Exit.loopError ∧
    (main worldLate).st.log.sink =
      ["T DEBUG RESTY cookies: [c1 c2]\n",
       "T ERROR RESTY Request failed: context deadline exceeded\n",
       "T ERROR RESTY Context deadline exceeded: context deadline exceeded\n"] :=
  have h := failure_log_distinguishes_cause worldLate
    (RetryNotify worldLate worldLate.grants (mainInit worldLate)).1
    ⟨"*url.Error", "context deadline exceeded"⟩ (by decide)
  ⟨by decide, h.1, h.2.1.trans (by decide)⟩

/-- The run `world200` ends its loop without error, and `main` leaves through
neither of the two exits C10 excludes. -/
theorem response_present_when_loop_succeeds_witness :
    RetryNotify world200 world200.grants (mainInit world200) =
      ((RetryNotify world200 world200.grants (mainInit world200)).1, none) ∧
    (1 ≤ (RetryNotify world200 world200.grants (mainInit world200)).1.attempt ∧
      (main world200).exit ≠ Exit.nilResponse ∧
      (main world200).exit ≠ Exit.secondErrCheck) :=
  have h := response_present_when_loop_succeeds world200
    (RetryNotify world200 world200.grants (mainInit world200)).1 (by decide)
  ⟨by decide, h.1, h.2.2.1, h.2.2.2⟩

end RestyBackoff
